import Mathlib

/-!
Shallow embedding of the VPSie docker-machine driver
(`src/driver/vpsie.go`) and proofs about its lifecycle operations.

The Go driver is effectful: every operation calls the provider REST
client and receives either a structured response or an error.  We model
one invocation of an operation by passing in a `Client` record holding
the response each provider endpoint would give to the single call the
operation makes to it, and `Except String` for Go's `(T, error)` return
convention (the `error` rendered as its message string).  Driver fields
read or written by the modelled operations form the `Driver` record;
operations that mutate the driver return the updated record.
-/

namespace Vpsie

/-- The normalized lifecycle states the driver produces
(libmachine `state.State` values used in `vpsie.go`). -/
inductive MachineState where
  | Starting
  | Running
  | Stopped
  | Error
  deriving DecidableEq, Repr

/-- The fields of `vpsie.ActionStatus` consulted by `Stop`/`Kill`
(src/driver/vpsie.go:211-219, 241-249): an error flag and an error code. -/
structure ActionStatus where
  Error : Bool
  ErrorCode : String
  deriving DecidableEq, Repr

/-- The fields of the provider create response consumed by `Create`
(src/driver/vpsie.go:148-156): identifier, IPv4 address, initial password. -/
structure VpsieInstance where
  Id : String
  IpV4 : String
  Password : String
  deriving DecidableEq, Repr

/-- A catalog entry (image, offer or datacenter); only its identifier is
consulted by the validators (src/driver/vpsie.go:259-302). -/
structure CatalogEntry where
  Id : String
  deriving DecidableEq, Repr

/-- The provider client, modelled as the response each endpoint gives to
the single call a driver operation makes to it.  `GetVPSie` carries the
`Status` field of the returned machine record, the only field `GetState`
reads; `StartVPSie`, `RestartVPSie` and `DeleteVPSie` carry the returned
status string. -/
structure Client where
  GetImages : Except String (List CatalogEntry)
  GetDatacenters : Except String (List CatalogEntry)
  GetOffers : Except String (List CatalogEntry)
  CreateVPSie : Except String VpsieInstance
  GetVPSie : Except String String
  StartVPSie : Except String String
  ShutdownVPSie : Except String ActionStatus
  RestartVPSie : Except String String
  DeleteVPSie : Except String String

/-- The driver fields read or written by the modelled operations
(src/driver/vpsie.go:24-36; `IPAddress` and `MachineName` live on the
embedded `BaseDriver`). -/
structure Driver where
  MachineName : String
  IPAddress : String
  InstanceID : String
  ImageID : String
  OfferID : String
  DatacenterID : String
  deriving DecidableEq, Repr

/-- `Driver.GetIP` (src/driver/vpsie.go:178-183). -/
def GetIP (d : Driver) : Except String String :=
  if d.IPAddress = "" ∨ d.IPAddress = "0" then
    .error "IP address is not set"
  else
    .ok d.IPAddress

/-- `Driver.GetSSHHostname` (src/driver/vpsie.go:86-88): delegates to `GetIP`. -/
def GetSSHHostname (d : Driver) : Except String String :=
  GetIP d

/-- `Driver.GetState` (src/driver/vpsie.go:185-199).  Returns the mapped
state together with the error returned alongside it (`none` for Go `nil`). -/
def GetState (c : Client) : MachineState × Option String :=
  match c.GetVPSie with
  | .error err => (.Error, some err)
  | .ok status =>
    if status = "Started" then (.Starting, none)
    else if status = "Running" then (.Running, none)
    else if status = "Stopped" then (.Stopped, none)
    else (.Error, none)

/-- Message of libmachine's `drivers.ErrHostIsNotRunning`, returned by
`GetURL` when the state is not Running. -/
def ErrHostIsNotRunning : String := "Host is not running"

/-- `Driver.GetURL` (src/driver/vpsie.go:161-176). -/
def GetURL (d : Driver) (c : Client) : Except String String :=
  match GetState c with
  | (_, some err) => .error err
  | (s, none) =>
    if s ≠ .Running then .error ErrHostIsNotRunning
    else
      match GetIP d with
      | .error err => .error err
      | .ok ip => .ok ("tcp://" ++ ip ++ ":2376")

/-- `Driver.Start` (src/driver/vpsie.go:201-209). -/
def Start (c : Client) : Except String Unit :=
  match c.StartVPSie with
  | .error err => .error err
  | .ok status =>
    if status ≠ "Started" then .error ("Invalid status " ++ status ++ " after start")
    else .ok ()

/-- `Driver.Stop` (src/driver/vpsie.go:211-219). -/
def Stop (c : Client) : Except String Unit :=
  match c.ShutdownVPSie with
  | .error err => .error err
  | .ok actionStatus =>
    if actionStatus.Error then .error actionStatus.ErrorCode
    else .ok ()

/-- `Driver.Remove` (src/driver/vpsie.go:221-229). -/
def Remove (c : Client) : Except String Unit :=
  match c.DeleteVPSie with
  | .error err => .error err
  | .ok status =>
    if status ≠ "Deleted" then .error ("Invalid status " ++ status ++ " after remove")
    else .ok ()

/-- `Driver.Restart` (src/driver/vpsie.go:231-239). -/
def Restart (c : Client) : Except String Unit :=
  match c.RestartVPSie with
  | .error err => .error err
  | .ok status =>
    if status ≠ "Restarted" then .error ("Invalid status " ++ status ++ " after restart")
    else .ok ()

/-- `Driver.Kill` (src/driver/vpsie.go:241-249): same body as `Stop`,
issuing the provider shutdown action. -/
def Kill (c : Client) : Except String Unit :=
  match c.ShutdownVPSie with
  | .error err => .error err
  | .ok actionStatus =>
    if actionStatus.Error then .error actionStatus.ErrorCode
    else .ok ()

/-- `Driver.validateImageID` (src/driver/vpsie.go:259-272): the loop over
the catalog returning nil on the first identifier match is `List.any`. -/
def validateImageID (d : Driver) (c : Client) : Except String Unit :=
  match c.GetImages with
  | .error err => .error err
  | .ok images =>
    if images.any (fun image => image.Id == d.ImageID) then .ok ()
    else .error ("Image ID " ++ d.ImageID ++ " is invalid")

/-- `Driver.validateDatacenterID` (src/driver/vpsie.go:274-287). -/
def validateDatacenterID (d : Driver) (c : Client) : Except String Unit :=
  match c.GetDatacenters with
  | .error err => .error err
  | .ok datacenters =>
    if datacenters.any (fun datacenter => datacenter.Id == d.DatacenterID) then .ok ()
    else .error ("Datacenter ID " ++ d.DatacenterID ++ " is invalid")

/-- `Driver.validateOfferID` (src/driver/vpsie.go:289-302). -/
def validateOfferID (d : Driver) (c : Client) : Except String Unit :=
  match c.GetOffers with
  | .error err => .error err
  | .ok offers =>
    if offers.any (fun offer => offer.Id == d.OfferID) then .ok ()
    else .error ("Offer ID " ++ d.OfferID ++ " is invalid")

/-- `Driver.PreCreateCheck` (src/driver/vpsie.go:113-129): validates image,
then datacenter, then offer, stopping at the first failure. -/
def PreCreateCheck (d : Driver) (c : Client) : Except String Unit :=
  match validateImageID d c with
  | .error err => .error err
  | .ok _ =>
    match validateDatacenterID d c with
    | .error err => .error err
    | .ok _ =>
      match validateOfferID d c with
      | .error err => .error err
      | .ok _ => .ok ()

/-- Outcomes of the three effectful bootstrap steps of
`addSshKeyToServer` (src/driver/vpsie.go:321-337) for one invocation:
the wait for the Running state, the wait for SSH availability
(both `mcnutils.WaitFor`), and the authorized-keys append command
(`runSshCommand`, whose string output is returned on success). -/
structure BootstrapEnv where
  waitRunning : Except String Unit
  waitSsh : Except String Unit
  runAppendKey : Except String String

/-- `Driver.addSshKeyToServer` (src/driver/vpsie.go:321-337). -/
def addSshKeyToServer (env : BootstrapEnv) : Except String Unit :=
  match env.waitRunning with
  | .error err => .error ("Error waiting for machine to be running: " ++ err)
  | .ok _ =>
    match env.waitSsh with
    | .error err => .error ("Error waiting for ssh to be available: " ++ err)
    | .ok _ =>
      match env.runAppendKey with
      | .error err => .error err
      | .ok _ => .ok ()

/-- `Driver.Create` (src/driver/vpsie.go:131-159).  `sshKey` is the outcome
of `createSSHKey` (key generation plus public-key read, both external
effects).  After a successful provider create call the identifier and
address are recorded; the call to `addSshKeyToServer` on line 156 discards
the returned error, exactly as in the source, and `Create` returns nil. -/
def Create (d : Driver) (c : Client) (sshKey : Except String String)
    (env : BootstrapEnv) : Driver × Except String Unit :=
  match sshKey with
  | .error err => (d, .error err)
  | .ok _key =>
    match c.CreateVPSie with
    | .error err => (d, .error err)
    | .ok inst =>
      let d2 := { d with InstanceID := inst.Id, IPAddress := inst.IpV4 }
      let _ := addSshKeyToServer env
      (d2, .ok ())

/-- The provider endpoints an invocation can hit on the creation path. -/
inductive ProviderCall where
  | getImages
  | getDatacenters
  | getOffers
  | createVPSie
  deriving DecidableEq, Repr

/-- `PreCreateCheck` instrumented with the provider calls it issues: each
validator fetches exactly one catalog (src/driver/vpsie.go:260, 275, 290),
and validation stops at the first failure. -/
def PreCreateCheckTraced (d : Driver) (c : Client) :
    List ProviderCall × Except String Unit :=
  match validateImageID d c with
  | .error err => ([.getImages], .error err)
  | .ok _ =>
    match validateDatacenterID d c with
    | .error err => ([.getImages, .getDatacenters], .error err)
    | .ok _ =>
      match validateOfferID d c with
      | .error err => ([.getImages, .getDatacenters, .getOffers], .error err)
      | .ok _ => ([.getImages, .getDatacenters, .getOffers], .ok ())

/-- `Create` instrumented with the provider calls it issues: `CreateVPSie`
is reached unless key generation already failed (src/driver/vpsie.go:134-147). -/
def CreateTraced (d : Driver) (c : Client) (sshKey : Except String String)
    (env : BootstrapEnv) : List ProviderCall × Driver × Except String Unit :=
  match sshKey with
  | .error err => ([], d, .error err)
  | .ok _key =>
    match c.CreateVPSie with
    | .error err => ([.createVPSie], d, .error err)
    | .ok inst =>
      let _ := addSshKeyToServer env
      ([.createVPSie], { d with InstanceID := inst.Id, IPAddress := inst.IpV4 }, .ok ())

/-- Modelled from the spec: the orchestrator that drives the driver
(docker-machine's host-creation flow, outside this repository) invokes
`PreCreateCheck` first and invokes `Create` only when it succeeded
("all three must succeed for provisioning to proceed").  Returns all
provider calls issued by one provisioning invocation. -/
def provisionTraced (d : Driver) (c : Client) (sshKey : Except String String)
    (env : BootstrapEnv) : List ProviderCall × Driver × Except String Unit :=
  match PreCreateCheckTraced d c with
  | (calls, .error err) => (calls, d, .error err)
  | (calls, .ok _) =>
    let r := CreateTraced d c sshKey env
    (calls ++ r.1, r.2.1, r.2.2)

/-! Concrete fixtures used by witnesses and counterexamples. -/

/-- A concrete driver record before creation. -/
def d0 : Driver :=
  { MachineName := "machine", IPAddress := "", InstanceID := "",
    ImageID := "img", OfferID := "offer", DatacenterID := "dc" }

/-- A concrete driver record holding an address. -/
def d1 : Driver :=
  { MachineName := "machine", IPAddress := "10.0.0.5", InstanceID := "vps-1",
    ImageID := "img", OfferID := "offer", DatacenterID := "dc" }

/-- A base client whose catalogs are empty and whose other endpoints fail. -/
def anyClient : Client :=
  { GetImages := .ok [], GetDatacenters := .ok [], GetOffers := .ok [],
    CreateVPSie := .error "unused", GetVPSie := .error "unused",
    StartVPSie := .error "unused", ShutdownVPSie := .error "unused",
    RestartVPSie := .error "unused", DeleteVPSie := .error "unused" }

/-- A bootstrap environment in which every step succeeds. -/
def env0 : BootstrapEnv :=
  { waitRunning := .ok (), waitSsh := .ok (), runAppendKey := .ok "" }

/-- A client whose provider create call succeeds. -/
def c1Client : Client :=
  { anyClient with CreateVPSie := .ok ⟨"vps-1", "10.0.0.5", "pw"⟩ }

/-- A bootstrap environment whose wait for the Running state times out. -/
def c1Env : BootstrapEnv :=
  { waitRunning := .error "timeout", waitSsh := .ok (), runAppendKey := .ok "" }

/-- C1: the claim says a failed key-installation step makes `Create` return
a non-nil error.  The code does not: `Create` discards the error returned
by `addSshKeyToServer` (src/driver/vpsie.go:156) and returns nil.  Here the
wait for the Running state fails, `addSshKeyToServer` reports the wrapped
timeout error, yet `Create` still returns ok. -/
theorem create_returns_nil_despite_failed_key_install :
    addSshKeyToServer c1Env =
      .error "Error waiting for machine to be running: timeout" ∧
    (Create d0 c1Client (.ok "ssh-rsa AAA") c1Env).2 = .ok () :=
  ⟨rfl, rfl⟩

/-- C3: `GetState` maps a successfully fetched status string via
"Started" to Starting, "Running" to Running, "Stopped" to Stopped, and
anything else to Error with no accompanying error, while a failed query
yields Error together with the underlying error, so the two Error cases
are distinguished by the returned error. -/
theorem getState_status_mapping (c : Client) :
    (∀ e, c.GetVPSie = .error e → GetState c = (.Error, some e)) ∧
    (∀ s, c.GetVPSie = .ok s →
      GetState c =
        (if s = "Started" then (.Starting, none)
         else if s = "Running" then (.Running, none)
         else if s = "Stopped" then (.Stopped, none)
         else (.Error, none))) := by
  constructor
  · intro e h
    simp [GetState, h]
  · intro s h
    simp only [GetState, h]

/-- Witness for C3 at concrete inputs: an unrecognized status yields
(Error, none) and a failed query yields (Error, some cause). -/
theorem getState_status_mapping_witness :
    GetState { anyClient with GetVPSie := .ok "Banana" } = (.Error, none) ∧
    GetState { anyClient with GetVPSie := .error "down" } = (.Error, some "down") := by
  constructor
  · have h := (getState_status_mapping { anyClient with GetVPSie := .ok "Banana" }).2
      "Banana" rfl
    simpa using h
  · exact (getState_status_mapping { anyClient with GetVPSie := .error "down" }).1
      "down" rfl

/-- C6: `GetIP` errors when the stored address is "" or "0" and returns
the stored address unchanged for every other string. -/
theorem getIP_spec (d : Driver) :
    (d.IPAddress = "" → GetIP d = .error "IP address is not set") ∧
    (d.IPAddress = "0" → GetIP d = .error "IP address is not set") ∧
    (d.IPAddress ≠ "" → d.IPAddress ≠ "0" → GetIP d = .ok d.IPAddress) := by
  refine ⟨fun h => ?_, fun h => ?_, fun h1 h2 => ?_⟩
  · simp [GetIP, h]
  · simp [GetIP, h]
  · simp [GetIP, h1, h2]

/-- Witness for C6 at concrete inputs: an unset address errors, a set
address is returned unchanged. -/
theorem getIP_spec_witness :
    GetIP d0 = .error "IP address is not set" ∧ GetIP d1 = .ok "10.0.0.5" := by
  constructor
  · exact (getIP_spec d0).1 rfl
  · have h := (getIP_spec d1).2.2 (by decide) (by decide)
    simpa using h

/-- C8: `Stop` and `Kill` both issue the provider shutdown action and
apply the same success criterion, so for equal provider responses they
return equal results. -/
theorem stop_kill_identical (c : Client) : Stop c = Kill c := rfl

/-- C10: `GetSSHHostname` returns exactly what `GetIP` returns. -/
theorem getSSHHostname_eq_getIP (d : Driver) : GetSSHHostname d = GetIP d := rfl

/-- The validators' catalog scan succeeds exactly when some entry carries
the requested identifier. -/
theorem anyId_iff (l : List CatalogEntry) (x : String) :
    (l.any fun e => e.Id == x) = true ↔ ∃ en ∈ l, en.Id = x := by
  simp [List.any_eq_true]

/-- C2: when datacenter validation fails, the provisioning invocation
(`PreCreateCheck` gating `Create`) never reaches the provider create
endpoint: `PreCreateCheck` aborts at the failed validator, so `Create`
is never entered. -/
theorem no_create_call_when_datacenter_validation_fails
    (d : Driver) (c : Client) (sshKey : Except String String) (env : BootstrapEnv)
    (e : String) (h : validateDatacenterID d c = .error e) :
    ProviderCall.createVPSie ∉ (provisionTraced d c sshKey env).1 := by
  unfold provisionTraced PreCreateCheckTraced
  cases hv : validateImageID d c with
  | error err => simp
  | ok u => rw [h]; simp

/-- A client whose image catalog contains the requested image but whose
datacenter catalog is empty, so datacenter validation fails. -/
def dcFailClient : Client :=
  { anyClient with GetImages := .ok [⟨"img"⟩] }

/-- Witness for C2: with an empty datacenter catalog, datacenter
validation fails and the provisioning trace contains no create call. -/
theorem no_create_call_when_datacenter_validation_fails_witness :
    validateDatacenterID d0 dcFailClient = .error "Datacenter ID dc is invalid" ∧
    ProviderCall.createVPSie ∉ (provisionTraced d0 dcFailClient (.ok "key") env0).1 := by
  constructor
  · rfl
  · exact no_create_call_when_datacenter_validation_fails d0 dcFailClient
      (.ok "key") env0 "Datacenter ID dc is invalid" rfl

/-- C4 counterexample: the claim says every one of the five lifecycle
operations succeeds exactly when the provider's reported terminal status
string equals the expected literal for that action.  `Stop` refutes it:
its success is decided solely by the shutdown response's error flag.  Two
responses whose only string fields differ ("A" and "B") both succeed, so
no single expected literal can characterize success, and a response whose
string field is the expected "Stopped" still fails because its error flag
is set. -/
theorem stop_success_not_status_literal :
    Stop { anyClient with ShutdownVPSie := .ok ⟨false, "A"⟩ } = .ok () ∧
    Stop { anyClient with ShutdownVPSie := .ok ⟨false, "B"⟩ } = .ok () ∧
    Stop { anyClient with ShutdownVPSie := .ok ⟨true, "Stopped"⟩ } = .error "Stopped" :=
  ⟨rfl, rfl, rfl⟩

/-- C4 (amended): `Start`, `Restart` and `Remove` succeed exactly when the
returned status string equals the expected literal ("Started",
"Restarted", "Deleted") and otherwise return an error naming the observed
status; `Stop` and `Kill` succeed exactly when the shutdown response's
error flag is unset and otherwise return an error naming the error code. -/
theorem lifecycle_success_criteria (c : Client) :
    (∀ s, c.StartVPSie = .ok s →
      Start c = if s = "Started" then .ok ()
        else .error ("Invalid status " ++ s ++ " after start")) ∧
    (∀ s, c.RestartVPSie = .ok s →
      Restart c = if s = "Restarted" then .ok ()
        else .error ("Invalid status " ++ s ++ " after restart")) ∧
    (∀ s, c.DeleteVPSie = .ok s →
      Remove c = if s = "Deleted" then .ok ()
        else .error ("Invalid status " ++ s ++ " after remove")) ∧
    (∀ a, c.ShutdownVPSie = .ok a →
      Stop c = (if a.Error then .error a.ErrorCode else .ok ()) ∧
      Kill c = (if a.Error then .error a.ErrorCode else .ok ())) := by
  refine ⟨fun s h => ?_, fun s h => ?_, fun s h => ?_, fun a h => ?_⟩
  · by_cases hs : s = "Started" <;> simp [Start, h, hs]
  · by_cases hs : s = "Restarted" <;> simp [Restart, h, hs]
  · by_cases hs : s = "Deleted" <;> simp [Remove, h, hs]
  · rcases a with ⟨flag, code⟩
    cases flag <;> exact ⟨by simp [Stop, h], by simp [Kill, h]⟩

/-- Witness for C4 (amended) at concrete inputs: a matching status
succeeds and a mismatched status yields the error naming it. -/
theorem lifecycle_success_criteria_witness :
    Start { anyClient with StartVPSie := .ok "Started" } = .ok () ∧
    Remove { anyClient with DeleteVPSie := .ok "Gone" } =
      .error "Invalid status Gone after remove" := by
  constructor
  · have h := (lifecycle_success_criteria
      { anyClient with StartVPSie := .ok "Started" }).1 "Started" rfl
    simpa using h
  · have h := (lifecycle_success_criteria
      { anyClient with DeleteVPSie := .ok "Gone" }).2.2.1 "Gone" rfl
    rw [h]
    rfl

/-- C5: given a successfully fetched catalog, validation succeeds exactly
when some entry carries the requested identifier, and on failure the error
message embeds the requested identifier itself, untranslated and
untruncated.  Stated for the image and datacenter validators named by the
claim. -/
theorem validate_names_offending_id (d : Driver) (c : Client)
    (images datacenters : List CatalogEntry)
    (hi : c.GetImages = .ok images) (hd : c.GetDatacenters = .ok datacenters) :
    (validateImageID d c = .ok () ↔ ∃ img ∈ images, img.Id = d.ImageID) ∧
    ((¬ ∃ img ∈ images, img.Id = d.ImageID) →
      validateImageID d c = .error ("Image ID " ++ d.ImageID ++ " is invalid") ∧
      ∃ pre post, "Image ID " ++ d.ImageID ++ " is invalid" =
        pre ++ d.ImageID ++ post) ∧
    (validateDatacenterID d c = .ok () ↔
      ∃ entry ∈ datacenters, entry.Id = d.DatacenterID) ∧
    ((¬ ∃ entry ∈ datacenters, entry.Id = d.DatacenterID) →
      validateDatacenterID d c =
        .error ("Datacenter ID " ++ d.DatacenterID ++ " is invalid") ∧
      ∃ pre post, "Datacenter ID " ++ d.DatacenterID ++ " is invalid" =
        pre ++ d.DatacenterID ++ post) := by
  have hvi : validateImageID d c =
      if (images.any fun image => image.Id == d.ImageID) = true then .ok ()
      else .error ("Image ID " ++ d.ImageID ++ " is invalid") := by
    simp only [validateImageID, hi]
  have hvd : validateDatacenterID d c =
      if (datacenters.any fun datacenter => datacenter.Id == d.DatacenterID) = true
      then .ok ()
      else .error ("Datacenter ID " ++ d.DatacenterID ++ " is invalid") := by
    simp only [validateDatacenterID, hd]
  refine ⟨?_, ?_, ?_, ?_⟩
  · rw [hvi]
    by_cases hany : (images.any fun image => image.Id == d.ImageID) = true
    · rw [if_pos hany]
      exact iff_of_true rfl ((anyId_iff images d.ImageID).mp hany)
    · rw [if_neg hany]
      exact iff_of_false (fun hx => Except.noConfusion hx)
        (fun hex => hany ((anyId_iff images d.ImageID).mpr hex))
  · intro hnot
    have hany : ¬ (images.any fun image => image.Id == d.ImageID) = true :=
      fun hx => hnot ((anyId_iff images d.ImageID).mp hx)
    exact ⟨by rw [hvi]; simp [hany], "Image ID ", " is invalid", rfl⟩
  · rw [hvd]
    by_cases hany :
        (datacenters.any fun datacenter => datacenter.Id == d.DatacenterID) = true
    · rw [if_pos hany]
      exact iff_of_true rfl ((anyId_iff datacenters d.DatacenterID).mp hany)
    · rw [if_neg hany]
      exact iff_of_false (fun hx => Except.noConfusion hx)
        (fun hex => hany ((anyId_iff datacenters d.DatacenterID).mpr hex))
  · intro hnot
    have hany :
        ¬ (datacenters.any fun datacenter => datacenter.Id == d.DatacenterID) = true :=
      fun hx => hnot ((anyId_iff datacenters d.DatacenterID).mp hx)
    exact ⟨by rw [hvd]; simp [hany], "Datacenter ID ", " is invalid", rfl⟩

/-- A client whose image catalog holds the requested image and whose
datacenter catalog holds only a different datacenter. -/
def c5Client : Client :=
  { anyClient with GetImages := .ok [⟨"img"⟩], GetDatacenters := .ok [⟨"dcX"⟩] }

/-- Witness for C5 at concrete inputs: a present image validates, an
absent datacenter fails with a message naming the requested identifier. -/
theorem validate_names_offending_id_witness :
    validateImageID d0 c5Client = .ok () ∧
    validateDatacenterID d0 c5Client = .error "Datacenter ID dc is invalid" := by
  have h := validate_names_offending_id d0 c5Client [⟨"img"⟩] [⟨"dcX"⟩] rfl rfl
  constructor
  · exact h.1.mpr ⟨⟨"img"⟩, by simp, rfl⟩
  · rw [(h.2.2.2 (by decide)).1]
    rfl

/-- C7: `GetURL` propagates a failed state query, returns the
host-not-running error whenever the state is not Running, and for a
Running state with a set address returns the endpoint string embedding
the IP and the fixed port 2376. -/
theorem getURL_spec (d : Driver) (c : Client) :
    (∀ e, (GetState c).2 = some e → GetURL d c = .error e) ∧
    ((GetState c).2 = none → (GetState c).1 ≠ .Running →
      GetURL d c = .error ErrHostIsNotRunning) ∧
    (∀ ip, GetState c = (.Running, none) → GetIP d = .ok ip →
      GetURL d c = .ok ("tcp://" ++ ip ++ ":2376")) := by
  refine ⟨fun e h => ?_, fun h1 h2 => ?_, fun ip h hip => ?_⟩
  · rcases hg : GetState c with ⟨s, o⟩
    rw [hg] at h
    simp only at h
    subst h
    simp [GetURL, hg]
  · rcases hg : GetState c with ⟨s, o⟩
    rw [hg] at h1 h2
    simp only at h1 h2
    subst h1
    simp [GetURL, hg, h2]
  · simp [GetURL, h, hip]

/-- Witness for C7 at a concrete input: a Running machine with a set
address produces the tcp endpoint on port 2376. -/
theorem getURL_spec_witness :
    GetURL d1 { anyClient with GetVPSie := .ok "Running" } =
      .ok "tcp://10.0.0.5:2376" := by
  have h := (getURL_spec d1 { anyClient with GetVPSie := .ok "Running" }).2.2
    "10.0.0.5" (by rfl) (by rfl)
  exact h

/-- C9: whenever the provider create call fails, `Create` leaves the
stored instance identifier and address unchanged; they are assigned only
on the success path after the create call returned. -/
theorem create_failure_leaves_record_unchanged (d : Driver) (c : Client)
    (sshKey : Except String String) (env : BootstrapEnv) (e : String)
    (h : c.CreateVPSie = .error e) :
    (Create d c sshKey env).1.InstanceID = d.InstanceID ∧
    (Create d c sshKey env).1.IPAddress = d.IPAddress := by
  cases sshKey with
  | error err => simp [Create]
  | ok k => simp [Create, h]

/-- Witness for C9 at a concrete input: a failing provider create call
leaves the fresh driver record untouched. -/
theorem create_failure_leaves_record_unchanged_witness :
    (Create d0 anyClient (.ok "key") env0).1.InstanceID = d0.InstanceID ∧
    (Create d0 anyClient (.ok "key") env0).1.IPAddress = d0.IPAddress :=
  create_failure_leaves_record_unchanged d0 anyClient (.ok "key") env0 "unused" rfl

end Vpsie
